import Mathlib

/-!
Shallow embedding of the cart / checkout / order subsystem of the regional
e-commerce application (src/orders.py, src/products.py, src/config.py,
src/database.py), together with proofs about its specification.

Modelling conventions: monetary values are exact rationals, quantities and
stock counts are integers (Python ints), and the relational store is a
record of lists of rows.  A SQLAlchemy `.first()` query is `List.find?`,
a `.all()` query is `List.filter`, mutating the object returned by a
`.first()` query is `updateFirst`, `session.delete(obj)` is `removeFirst`,
and a bulk `.delete()` is `List.filter` with the negated predicate.
The current authenticated user is passed explicitly as `uid`.
-/
namespace ECom

/-- Order status enumeration (database.OrderStatus). -/

inductive OrderStatus where
  | PENDING
  | PAID
  | SHIPPED
  | DELIVERED
  | CANCELLED
  deriving DecidableEq, Repr

/-- String value of an order status (database.OrderStatus member values). -/

def OrderStatus.value : OrderStatus → String
  | .PENDING => "pending"
  | .PAID => "paid"
  | .SHIPPED => "shipped"
  | .DELIVERED => "delivered"
  | .CANCELLED => "cancelled"

/-- Product row (database.Product; columns relevant to the order subsystem). -/

structure Product where
  id : Nat
  business_id : Nat
  name : String
  price : ℚ
  stock_quantity : Int
  is_active : Bool
  deriving DecidableEq, Repr

/-- Cart item row (database.CartItem). -/

structure CartItem where
  id : Nat
  user_id : Nat
  product_id : Nat
  quantity : Int
  deriving DecidableEq, Repr

/-- Business row (database.Business; columns relevant here). -/

structure Business where
  id : Nat
  owner_id : Nat
  name : String
  deriving DecidableEq, Repr

/-- Order row (database.Order; created_at omitted, it is display-only). -/

structure Order where
  id : Nat
  user_id : Nat
  total_amount : ℚ
  status : OrderStatus
  shipping_address : String
  deriving DecidableEq, Repr

/-- Order item row (database.OrderItem). -/

structure OrderItem where
  id : Nat
  order_id : Nat
  product_id : Nat
  quantity : Int
  price_at_time : ℚ
  deriving DecidableEq, Repr

/-- The relational store: one list per table, plus primary-key counters
modelling the auto-increment columns. -/

structure DB where
  products : List Product
  cartItems : List CartItem
  orders : List Order
  orderItems : List OrderItem
  businesses : List Business
  nextOrderId : Nat
  nextOrderItemId : Nat
  nextCartItemId : Nat
  deriving DecidableEq, Repr

/-- Tax rate from config.py (TAX_RATE = 0.08). -/

def TAX_RATE : ℚ := 8 / 100

/-- Replace the first element satisfying `p` by its image under `f`
(mutating the single row returned by a `.first()` query). -/

def updateFirst {α : Type _} (p : α → Bool) (f : α → α) : List α → List α
  | [] => []
  | x :: xs => if p x then f x :: xs else x :: updateFirst p f xs

/-- Remove the first element satisfying `p` (a `session.delete(obj)` of the
row returned by a `.first()` query). -/

def removeFirst {α : Type _} (p : α → Bool) : List α → List α
  | [] => []
  | x :: xs => if p x then xs else x :: removeFirst p xs

/-- Query: `Product` by id (`.first()`). -/

def productFind (db : DB) (pid : Nat) : Option Product :=
  db.products.find? (fun x => x.id == pid)

/-- Query: active `Product` by id (`.first()` with `is_active == True`). -/

def activeProductFind (db : DB) (pid : Nat) : Option Product :=
  db.products.find? (fun x => x.id == pid && x.is_active)

/-- Query: the caller's `CartItem` for a product (`.first()`). -/

def cartFind (db : DB) (uid pid : Nat) : Option CartItem :=
  db.cartItems.find? (fun c => c.user_id == uid && c.product_id == pid)

/-- Query: `Order` by id (`.first()`). -/

def orderFind (db : DB) (oid : Nat) : Option Order :=
  db.orders.find? (fun o => o.id == oid)

/-- Query: the first `Business` owned by the user (`.first()`). -/

def businessOfOwner (db : DB) (uid : Nat) : Option Business :=
  db.businesses.find? (fun b => b.owner_id == uid)

/-- Query: ids of the products of a business. -/

def businessPids (db : DB) (bid : Nat) : List Nat :=
  (db.products.filter (fun p => p.business_id == bid)).map (fun p => p.id)

/-- Query: all cart rows of one user (`.all()`). -/

def userCart (db : DB) (uid : Nat) : List CartItem :=
  db.cartItems.filter (fun c => c.user_id == uid)

/-- orders.add_to_cart. -/

def add_to_cart (uid pid : Nat) (quantity : Int) (db : DB) : Bool × String × DB :=
  if quantity ≤ 0 then (false, "Quantity must be a positive number.", db)
  else
    match activeProductFind db pid with
    | none => (false, "Product not found or unavailable.", db)
    | some product =>
      if product.stock_quantity < quantity then
        (false, "Not enough stock. Available: " ++ toString product.stock_quantity, db)
      else
        match cartFind db uid pid with
        | some cart_item =>
          let new_quantity := cart_item.quantity + quantity
          if product.stock_quantity < new_quantity then
            (false, "Cannot add more. Maximum available: " ++ toString product.stock_quantity, db)
          else
            (true, "Item quantity updated in cart.",
              { db with cartItems :=
                  (updateFirst (fun c => c.user_id == uid && c.product_id == pid)
                    (fun c => { c with quantity := new_quantity }) db.cartItems) })
        | none =>
          (true, "Item added to cart.",
            { db with
                cartItems := db.cartItems ++
                  [{ id := db.nextCartItemId, user_id := uid, product_id := pid,
                     quantity := quantity }],
                nextCartItemId := db.nextCartItemId + 1 })

/-- orders.remove_from_cart. -/

def remove_from_cart (uid ciid : Nat) (db : DB) : Bool × String × DB :=
  match db.cartItems.find? (fun c => c.id == ciid && c.user_id == uid) with
  | none => (false, "Cart item not found.", db)
  | some _ =>
    (true, "Item removed from cart.",
      { db with cartItems :=
          removeFirst (fun c => c.id == ciid && c.user_id == uid) db.cartItems })

/-- orders.update_cart_item. -/

def update_cart_item (uid ciid : Nat) (quantity : Int) (db : DB) : Bool × String × DB :=
  if quantity ≤ 0 then remove_from_cart uid ciid db
  else
    match db.cartItems.find? (fun c => c.id == ciid && c.user_id == uid) with
    | none => (false, "Cart item not found.", db)
    | some cart_item =>
      match productFind db cart_item.product_id with
      | none => (false, "Product not found.", db)
      | some product =>
        if product.stock_quantity < quantity then
          (false, "Not enough stock. Available: " ++ toString product.stock_quantity, db)
        else
          (true, "Cart updated successfully.",
            { db with cartItems :=
                (updateFirst (fun c => c.id == ciid && c.user_id == uid)
                  (fun c => { c with quantity := quantity }) db.cartItems) })

/-- orders.clear_cart. -/

def clear_cart (uid : Nat) (db : DB) : Bool × String × DB :=
  (true, "Cart cleared successfully.",
    { db with cartItems := db.cartItems.filter (fun c => !(c.user_id == uid)) })

/-- Data collected for one valid cart line during checkout validation
(the order_items_data dicts in orders.checkout). -/

structure ItemData where
  product_id : Nat
  quantity : Int
  price_at_time : ℚ
  deriving DecidableEq, Repr

/-- The validation loop of orders.checkout: returns the running subtotal,
the order_items_data list and the insufficient_stock message list, in cart
order.  A cart line whose product row is missing is skipped silently. -/

def checkoutScan (db : DB) : List CartItem → ℚ × List ItemData × List String
  | [] => (0, [], [])
  | ci :: rest =>
    match productFind db ci.product_id with
    | none => checkoutScan db rest
    | some product =>
      if !product.is_active then
        ((checkoutScan db rest).1, (checkoutScan db rest).2.1,
          (product.name ++ " is no longer available.") ::
            (checkoutScan db rest).2.2)
      else if product.stock_quantity < ci.quantity then
        ((checkoutScan db rest).1, (checkoutScan db rest).2.1,
          (product.name ++ " has only " ++ toString product.stock_quantity ++
            " available.") :: (checkoutScan db rest).2.2)
      else
        (product.price * (ci.quantity : ℚ) + (checkoutScan db rest).1,
          { product_id := product.id, quantity := ci.quantity,
            price_at_time := product.price } :: (checkoutScan db rest).2.1,
          (checkoutScan db rest).2.2)

/-- Result of orders.checkout: the created Order, or an error message. -/

inductive CheckoutResult where
  | ok (order : Order)
  | err (msg : String)
  deriving DecidableEq, Repr

/-- The stock-deduction loop of orders.checkout: for each order_items_data
entry, re-query the product by id (`.first()`) and decrement its stock. -/

def decStocks : List Product → List ItemData → List Product
  | ps, [] => ps
  | ps, d :: rest =>
    decStocks
      (updateFirst (fun p => p.id == d.product_id)
        (fun p => { p with stock_quantity := p.stock_quantity - d.quantity }) ps)
      rest

/-- The OrderItem-creation loop of orders.checkout, with auto-increment ids. -/

def mkOrderItems (oid : Nat) (startId : Nat) : List ItemData → List OrderItem
  | [] => []
  | d :: rest =>
    { id := startId, order_id := oid, product_id := d.product_id,
      quantity := d.quantity, price_at_time := d.price_at_time } ::
      mkOrderItems oid (startId + 1) rest

/-- orders.checkout. -/

def checkout (uid : Nat) (shipping_address : String) (db : DB) :
    CheckoutResult × DB :=
  let cart := userCart db uid
  if cart.isEmpty then (.err "Your cart is empty.", db)
  else
    let scanned := checkoutScan db cart
    if !scanned.2.2.isEmpty then
      (.err ("Cannot create order due to inventory issues:\n" ++
        String.intercalate "\n" scanned.2.2), db)
    else
      let total_amount := scanned.1 + scanned.1 * TAX_RATE
      let new_order : Order :=
        { id := db.nextOrderId, user_id := uid, total_amount := total_amount,
          status := .PENDING, shipping_address := shipping_address }
      (.ok new_order,
        { db with
            orders := db.orders ++ [new_order],
            orderItems := db.orderItems ++
              mkOrderItems new_order.id db.nextOrderItemId scanned.2.1,
            products := decStocks db.products scanned.2.1,
            cartItems := db.cartItems.filter (fun c => !(c.user_id == uid)),
            nextOrderId := db.nextOrderId + 1,
            nextOrderItemId := db.nextOrderItemId + scanned.2.1.length })

/-- orders.update_order_status. -/

def update_order_status (uid oid : Nat) (new_status : OrderStatus) (db : DB) :
    Bool × String × DB :=
  match businessOfOwner db uid with
  | none => (false, "You don\x27t have a registered business.", db)
  | some business =>
    let merchant_product_ids := businessPids db business.id
    if merchant_product_ids.isEmpty then
      (false, "You don\x27t have any products listed.", db)
    else if !(db.orderItems.any (fun it =>
        it.order_id == oid && merchant_product_ids.contains it.product_id)) then
      (false,
        "You cannot update this order because it doesn\x27t contain any of your products.",
        db)
    else
      match orderFind db oid with
      | none => (false, "Order #" ++ toString oid ++ " not found.", db)
      | some order =>
        (true,
          "Order status updated from " ++ order.status.value ++ " to " ++
            new_status.value,
          { db with orders :=
              (updateFirst (fun o => o.id == oid)
                (fun o => { o with status := new_status }) db.orders) })

/-- orders.view_merchant_orders. -/

def view_merchant_orders (uid bid : Nat) (db : DB) : List Order :=
  match db.businesses.find? (fun b => b.id == bid && b.owner_id == uid) with
  | none => []
  | some _ =>
    let product_ids := businessPids db bid
    if product_ids.isEmpty then []
    else
      db.orders.filter (fun o =>
        db.orderItems.any (fun it =>
          it.order_id == o.id && product_ids.contains it.product_id))

/-- orders.view_merchant_order_details.  Note: the source verifies no
ownership of `bid`; the caller `uid` is only checked for presence. -/

def view_merchant_order_details (uid oid bid : Nat) (db : DB) :
    Option Order × List OrderItem :=
  let _ := uid
  let product_ids := businessPids db bid
  if product_ids.isEmpty then (none, [])
  else
    match orderFind db oid with
    | none => (none, [])
    | some order =>
      let order_items := db.orderItems.filter (fun it =>
        it.order_id == oid && product_ids.contains it.product_id)
      if order_items.isEmpty then (none, [])
      else (some order, order_items)

/-- Field updates of products.update_product (Python truthiness: empty
strings are falsy for name/description/category). -/

def applyProductUpdates (name description : Option String) (price : Option ℚ)
    (stock : Option Int) (category : Option String) (active : Option Bool)
    (p : Product) : Product :=
  let p := match name with
    | some n => if n = "" then p else { p with name := n }
    | none => p
  let p := match description with
    | some _ => p
    | none => p
  let p := match price with
    | some v => { p with price := v }
    | none => p
  let p := match stock with
    | some s => { p with stock_quantity := s }
    | none => p
  let p := match category with
    | some _ => p
    | none => p
  match active with
  | some a => { p with is_active := a }
  | none => p

/-- products.update_product (description/category columns are not part of
the Product model here, so those two updates are no-ops). -/

def update_product (uid pid : Nat) (name description : Option String)
    (price : Option ℚ) (stock : Option Int) (category : Option String)
    (active : Option Bool) (db : DB) : Bool × DB :=
  let owned := fun (p : Product) =>
    p.id == pid && db.businesses.any (fun b =>
      b.id == p.business_id && b.owner_id == uid)
  match db.products.find? owned with
  | none => (false, db)
  | some _ =>
    (true,
      { db with products :=
          (updateFirst owned
            (applyProductUpdates name description price stock category active)
            db.products) })

/-- The cart / checkout operations named by the stock invariant claim. -/

inductive CartOp where
  | add (uid pid : Nat) (q : Int)
  | upd (uid ciid : Nat) (q : Int)
  | rem (uid ciid : Nat)
  | clear (uid : Nat)
  | chk (uid : Nat) (addr : String)

/-- State transition of one cart / checkout operation. -/

def applyCartOp (db : DB) : CartOp → DB
  | .add uid pid q => (add_to_cart uid pid q db).2.2
  | .upd uid ciid q => (update_cart_item uid ciid q db).2.2
  | .rem uid ciid => (remove_from_cart uid ciid db).2.2
  | .clear uid => (clear_cart uid db).2.2
  | .chk uid addr => (checkout uid addr db).2

/-- State transition of a sequence of cart / checkout operations. -/

def applyCartOps (db : DB) : List CartOp → DB
  | [] => db
  | op :: rest => applyCartOps (applyCartOp db op) rest

/-- All state-mutating operations of the subsystem (cart / checkout plus the
merchant-side mutators). -/

inductive Op where
  | cart (c : CartOp)
  | updProduct (uid pid : Nat) (name description : Option String)
      (price : Option ℚ) (stock : Option Int) (category : Option String)
      (active : Option Bool)
  | updStatus (uid oid : Nat) (st : OrderStatus)

/-- State transition of one operation. -/

def applyOp (db : DB) : Op → DB
  | .cart c => applyCartOp db c
  | .updProduct uid pid n d pr s cat a =>
      (update_product uid pid n d pr s cat a db).2
  | .updStatus uid oid st => (update_order_status uid oid st db).2.2

/-- State transition of a sequence of operations. -/

def applyOps (db : DB) : List Op → DB
  | [] => db
  | op :: rest => applyOps (applyOp db op) rest

/-- A cart line passes checkout validation: its product row exists, is
active, and stock covers the requested quantity. -/

def lineValidB (db : DB) (ci : CartItem) : Bool :=
  match productFind db ci.product_id with
  | some p => p.is_active && decide (ci.quantity ≤ p.stock_quantity)
  | none => false

/-- A cart line fails checkout validation: its product row exists but is
inactive or under-stocked. -/

def lineFailsB (db : DB) (ci : CartItem) : Bool :=
  match productFind db ci.product_id with
  | some p => !p.is_active || decide (p.stock_quantity < ci.quantity)
  | none => false

/-- The validation-failure reason checkout records for one cart line, if
any. -/

def lineReason1 (db : DB) (ci : CartItem) : Option String :=
  match productFind db ci.product_id with
  | none => none
  | some p =>
    if !p.is_active then some (p.name ++ " is no longer available.")
    else if p.stock_quantity < ci.quantity then
      some (p.name ++ " has only " ++ toString p.stock_quantity ++
        " available.")
    else none

/-- The per-line reasons checkout aggregates on validation failure, in
cart order. -/

def lineReasons (db : DB) (cart : List CartItem) : List String :=
  cart.filterMap (lineReason1 db)

/-- Current price of a product (0 if the row is missing). -/

def productPrice (db : DB) (pid : Nat) : ℚ :=
  match productFind db pid with
  | some p => p.price
  | none => 0

/-- Subtotal of a cart at current product prices. -/

def cartSubtotal (db : DB) (cart : List CartItem) : ℚ :=
  (cart.map (fun ci => productPrice db ci.product_id * (ci.quantity : ℚ))).sum

/-- Rounding to two decimals, as the spec's round(x, 2). -/

def round2 (q : ℚ) : ℚ := ((⌊q * 100 + 1 / 2⌋ : ℤ) : ℚ) / 100

/-- All stock quantities are non-negative. -/

def StockOk (db : DB) : Prop := ∀ p ∈ db.products, 0 ≤ p.stock_quantity

/-- No user's cart holds two rows for the same product. -/

def CartDistinct (db : DB) : Prop :=
  db.cartItems.Pairwise (fun a b => a.user_id = b.user_id → a.product_id ≠ b.product_id)

instance (db : DB) : Decidable (StockOk db) := by
  unfold StockOk; infer_instance

instance (db : DB) : Decidable (CartDistinct db) := by
  unfold CartDistinct; infer_instance

/-! ### Generic lemmas about first-match list updates -/

/-! ### Witness and counterexample stores for the claims -/

/-- Witness store for C1: one inactive product, one cart line for it. -/

def dbC1w : DB :=
  { products := [{ id := 1, business_id := 1, name := "A", price := 10,
                   stock_quantity := 5, is_active := false }],
    cartItems := [{ id := 1, user_id := 1, product_id := 1, quantity := 2 }],
    orders := [], orderItems := [], businesses := [],
    nextOrderId := 1, nextOrderItemId := 1, nextCartItemId := 2 }

/-- Witness store for C10: a mixed cart — one valid line for an existing
active product, plus one line whose product row does not exist. -/

def dbC10w : DB :=
  { products := [{ id := 1, business_id := 1, name := "A", price := 10,
                   stock_quantity := 5, is_active := true }],
    cartItems := [{ id := 1, user_id := 1, product_id := 1, quantity := 2 },
                  { id := 2, user_id := 1, product_id := 99, quantity := 3 }],
    orders := [], orderItems := [], businesses := [],
    nextOrderId := 1, nextOrderItemId := 1, nextCartItemId := 3 }

/-- Witness store for C2: Product A with stock 5, cart quantity 5. -/

def dbC2w : DB :=
  { products := [{ id := 1, business_id := 1, name := "A", price := 10,
                   stock_quantity := 5, is_active := true }],
    cartItems := [{ id := 1, user_id := 1, product_id := 1, quantity := 5 }],
    orders := [], orderItems := [], businesses := [],
    nextOrderId := 1, nextOrderItemId := 1, nextCartItemId := 2 }

/-- Counterexample store for C3: one product priced 10.01, cart quantity 1. -/

def dbC3cx : DB :=
  { products := [{ id := 1, business_id := 1, name := "A", price := 1001/100,
                   stock_quantity := 5, is_active := true }],
    cartItems := [{ id := 1, user_id := 1, product_id := 1, quantity := 1 }],
    orders := [], orderItems := [], businesses := [],
    nextOrderId := 1, nextOrderItemId := 1, nextCartItemId := 2 }

/-- Witness store for C3 (amended): one product priced 10.00, quantity 2. -/

def dbC3w : DB :=
  { products := [{ id := 1, business_id := 1, name := "A", price := 10,
                   stock_quantity := 5, is_active := true }],
    cartItems := [{ id := 1, user_id := 1, product_id := 1, quantity := 2 }],
    orders := [], orderItems := [], businesses := [],
    nextOrderId := 1, nextOrderItemId := 1, nextCartItemId := 2 }

/-- Observer: the stored total of a successful checkout result. -/

def checkoutTotal? : CheckoutResult → Option ℚ
  | .ok o => some o.total_amount
  | .err _ => none

/-- Counterexample store for C5: all stocks non-negative, but one user's
cart holds two rows for the same product (each passing per-line validation). -/

def dbC5cx : DB :=
  { products := [{ id := 1, business_id := 1, name := "A", price := 10,
                   stock_quantity := 5, is_active := true }],
    cartItems := [{ id := 1, user_id := 1, product_id := 1, quantity := 3 },
                  { id := 2, user_id := 1, product_id := 1, quantity := 3 }],
    orders := [], orderItems := [], businesses := [],
    nextOrderId := 1, nextOrderItemId := 1, nextCartItemId := 3 }

/-- Witness store for C5 (amended): a well-formed store. -/

def dbC5w : DB :=
  { products := [{ id := 1, business_id := 1, name := "A", price := 10,
                   stock_quantity := 5, is_active := true }],
    cartItems := [], orders := [], orderItems := [], businesses := [],
    nextOrderId := 1, nextOrderItemId := 1, nextCartItemId := 1 }

/-- Witness store for C6: Product B with stock 3, empty cart. -/

def dbC6w : DB :=
  { products := [{ id := 2, business_id := 1, name := "B", price := 7,
                   stock_quantity := 3, is_active := true }],
    cartItems := [], orders := [], orderItems := [], businesses := [],
    nextOrderId := 1, nextOrderItemId := 1, nextCartItemId := 1 }

/-- Counterexample store for C7: business 2 is owned by user 9; the caller
is user 1, who does not own it. -/

def dbC7cx : DB :=
  { products := [{ id := 1, business_id := 2, name := "P", price := 5,
                   stock_quantity := 10, is_active := true }],
    cartItems := [],
    orders := [{ id := 1, user_id := 3, total_amount := 5,
                 status := .PENDING, shipping_address := "a" }],
    orderItems := [{ id := 1, order_id := 1, product_id := 1, quantity := 1,
                     price_at_time := 5 }],
    businesses := [{ id := 2, owner_id := 9, name := "B2" }],
    nextOrderId := 2, nextOrderItemId := 2, nextCartItemId := 1 }

/-- Witness store for C7 (amended): same shape, caller 5 never owns
business 2. -/

def dbC7w : DB :=
  { products := [{ id := 1, business_id := 2, name := "P", price := 5,
                   stock_quantity := 10, is_active := true }],
    cartItems := [],
    orders := [{ id := 1, user_id := 3, total_amount := 5,
                 status := .PENDING, shipping_address := "a" }],
    orderItems := [{ id := 1, order_id := 1, product_id := 1, quantity := 1,
                     price_at_time := 5 }],
    businesses := [{ id := 2, owner_id := 9, name := "B2" }],
    nextOrderId := 2, nextOrderItemId := 2, nextCartItemId := 1 }

/-- Witness store for C8: two businesses (1 owned by user 1, 2 by user 9);
order 1 contains a product of business 1, order 2 only a product of
business 2. -/

def dbC8w : DB :=
  { products := [{ id := 1, business_id := 1, name := "P1", price := 5,
                   stock_quantity := 10, is_active := true },
                 { id := 2, business_id := 2, name := "P2", price := 6,
                   stock_quantity := 10, is_active := true }],
    cartItems := [],
    orders := [{ id := 1, user_id := 7, total_amount := 5,
                 status := .PENDING, shipping_address := "a" },
               { id := 2, user_id := 7, total_amount := 6,
                 status := .PENDING, shipping_address := "a" }],
    orderItems := [{ id := 1, order_id := 1, product_id := 1, quantity := 1,
                     price_at_time := 5 },
                   { id := 2, order_id := 2, product_id := 2, quantity := 1,
                     price_at_time := 6 }],
    businesses := [{ id := 1, owner_id := 1, name := "B1" },
                   { id := 2, owner_id := 9, name := "B2" }],
    nextOrderId := 3, nextOrderItemId := 3, nextCartItemId := 1 }

/-- Witness store for C9: user 1 owns business 1 with product 1; order 1 is
DELIVERED and contains that product. -/

def dbC9w : DB :=
  { products := [{ id := 1, business_id := 1, name := "P", price := 10,
                   stock_quantity := 5, is_active := true }],
    cartItems := [],
    orders := [{ id := 1, user_id := 3, total_amount := 10,
                 status := .DELIVERED, shipping_address := "a" }],
    orderItems := [{ id := 1, order_id := 1, product_id := 1, quantity := 1,
                     price_at_time := 10 }],
    businesses := [{ id := 1, owner_id := 1, name := "B" }],
    nextOrderId := 2, nextOrderItemId := 2, nextCartItemId := 1 }

theorem mem_updateFirst {α : Type _} {p : α → Bool} {f : α → α} {l : List α} {b : α}
    (hb : b ∈ updateFirst p f l) :
    b ∈ l ∨ ∃ x, l.find? p = some x ∧ b = f x := by
  induction l with
  | nil => simp [updateFirst] at hb
  | cons x xs ih =>
    by_cases hx : p x
    · rw [updateFirst, if_pos hx] at hb
      rcases List.mem_cons.mp hb with h | h
      · exact Or.inr ⟨x, by simp [List.find?_cons_of_pos _ hx], h⟩
      · exact Or.inl (List.mem_cons_of_mem _ h)
    · rw [updateFirst, if_neg hx] at hb
      rcases List.mem_cons.mp hb with h | h
      · exact Or.inl (h ▸ List.mem_cons_self _ _)
      · rcases ih h with h' | ⟨y, hy, hby⟩
        · exact Or.inl (List.mem_cons_of_mem _ h')
        · refine Or.inr ⟨y, ?_, hby⟩
          rw [List.find?_cons_of_neg _ (by simpa using hx)]
          exact hy

theorem mem_updateFirst_of_neg {α : Type _} {p : α → Bool} {f : α → α} {l : List α} {b : α}
    (hpb : p b = false) (hb : b ∈ l) : b ∈ updateFirst p f l := by
  induction l with
  | nil => simp at hb
  | cons x xs ih =>
    rcases List.mem_cons.mp hb with h | h
    · subst h
      rw [updateFirst, if_neg (by simp [hpb])]
      exact List.mem_cons_self _ _
    · by_cases hx : p x
      · rw [updateFirst, if_pos hx]
        exact List.mem_cons_of_mem _ h
      · rw [updateFirst, if_neg hx]
        exact List.mem_cons_of_mem _ (ih h)

theorem find?_updateFirst_self {α : Type _} {p : α → Bool} {f : α → α}
    (hf : ∀ x, p (f x) = p x) (l : List α) :
    (updateFirst p f l).find? p = (l.find? p).map f := by
  induction l with
  | nil => simp [updateFirst]
  | cons x xs ih =>
    by_cases hx : p x
    · rw [updateFirst, if_pos hx, List.find?_cons_of_pos _ (by rw [hf]; exact hx),
        List.find?_cons_of_pos _ hx]; rfl
    · rw [updateFirst, if_neg hx, List.find?_cons_of_neg _ (by simpa using hx),
        List.find?_cons_of_neg _ (by simpa using hx), ih]

theorem find?_updateFirst_other {α : Type _} {p q : α → Bool} {f : α → α}
    (hq : ∀ x, q (f x) = q x) (hpq : ∀ x, p x = true → q x = false) (l : List α) :
    (updateFirst p f l).find? q = l.find? q := by
  induction l with
  | nil => simp [updateFirst]
  | cons x xs ih =>
    by_cases hx : p x
    · rw [updateFirst, if_pos hx]
      have hqx : q x = false := hpq x hx
      rw [List.find?_cons_of_neg _ (by rw [hq]; simp [hqx]),
        List.find?_cons_of_neg _ (by simp [hqx])]
    · rw [updateFirst, if_neg hx]
      by_cases hqx : q x
      · rw [List.find?_cons_of_pos _ hqx, List.find?_cons_of_pos _ hqx]
      · rw [List.find?_cons_of_neg _ (by simpa using hqx),
          List.find?_cons_of_neg _ (by simpa using hqx), ih]

theorem length_updateFirst {α : Type _} (p : α → Bool) (f : α → α) (l : List α) :
    (updateFirst p f l).length = l.length := by
  induction l with
  | nil => rfl
  | cons x xs ih =>
    by_cases hx : p x
    · rw [updateFirst, if_pos hx]; simp
    · rw [updateFirst, if_neg hx]; simp [ih]

theorem removeFirst_sublist {α : Type _} (p : α → Bool) (l : List α) :
    (removeFirst p l).Sublist l := by
  induction l with
  | nil => simp [removeFirst]
  | cons x xs ih =>
    by_cases hx : p x
    · rw [removeFirst, if_pos hx]
      exact (List.sublist_cons_self x xs)
    · rw [removeFirst, if_neg hx]
      exact ih.cons₂ x

theorem pairwise_updateFirst {α : Type _} {R : α → α → Prop} {p : α → Bool} {f : α → α}
    (hf : ∀ x y, (R (f x) y ↔ R x y) ∧ (R y (f x) ↔ R y x))
    {l : List α} (hl : l.Pairwise R) : (updateFirst p f l).Pairwise R := by
  induction l with
  | nil => simp [updateFirst]
  | cons x xs ih =>
    rcases List.pairwise_cons.mp hl with ⟨hx, hxs⟩
    by_cases hpx : p x
    · rw [updateFirst, if_pos hpx]
      exact List.pairwise_cons.mpr ⟨fun b hb => (hf x b).1.mpr (hx b hb), hxs⟩
    · rw [updateFirst, if_neg hpx]
      refine List.pairwise_cons.mpr ⟨fun b hb => ?_, ih hxs⟩
      rcases mem_updateFirst hb with h | ⟨y, hy, hby⟩
      · exact hx b h
      · subst hby
        exact (hf y x).2.mpr (hx y (List.mem_of_find?_eq_some hy))

/-! ### Lemmas about the checkout validation loop -/

theorem lineFailsB_reason {db : DB} {ci : CartItem}
    (hfail : lineFailsB db ci = true) : ∃ m, lineReason1 db ci = some m := by
  unfold lineFailsB at hfail
  unfold lineReason1
  cases hp : productFind db ci.product_id with
  | none => rw [hp] at hfail; simp at hfail
  | some p =>
    rw [hp] at hfail
    rcases Bool.or_eq_true_iff.mp hfail with h | h
    · have ha : p.is_active = false := by simpa using h
      exact ⟨p.name ++ " is no longer available.", by simp [ha]⟩
    · have hlt : p.stock_quantity < ci.quantity := of_decide_eq_true h
      by_cases ha : p.is_active
      · exact ⟨p.name ++ " has only " ++ toString p.stock_quantity ++
          " available.", by simp [ha, hlt]⟩
      · simp only [Bool.not_eq_true] at ha
        exact ⟨p.name ++ " is no longer available.", by simp [ha]⟩

theorem lineReasons_ne_nil {db : DB} {cart : List CartItem} {ci : CartItem}
    (hci : ci ∈ cart) (hfail : lineFailsB db ci = true) :
    lineReasons db cart ≠ [] := by
  rcases lineFailsB_reason hfail with ⟨m, hm⟩
  have : m ∈ lineReasons db cart :=
    List.mem_filterMap.mpr ⟨ci, hci, hm⟩
  exact List.ne_nil_of_mem this

theorem checkoutScan_errs (db : DB) (cart : List CartItem) :
    (checkoutScan db cart).2.2 = lineReasons db cart := by
  induction cart with
  | nil => rfl
  | cons ci rest ih =>
    rw [lineReasons, List.filterMap_cons, ← lineReasons]
    cases hp : productFind db ci.product_id with
    | none => simp only [checkoutScan, hp, lineReason1]; exact ih
    | some p =>
      by_cases ha : p.is_active
      · by_cases hs : p.stock_quantity < ci.quantity
        · simp [checkoutScan, hp, lineReason1, ha, hs, ih]
        · simp [checkoutScan, hp, lineReason1, ha, hs, ih]
      · simp only [Bool.not_eq_true] at ha
        simp [checkoutScan, hp, lineReason1, ha, ih]

theorem checkoutScan_of_valid {db : DB} {cart : List CartItem}
    (hval : ∀ ci ∈ cart, lineValidB db ci = true) :
    checkoutScan db cart =
      (cartSubtotal db cart,
        cart.map (fun ci =>
          { product_id := ci.product_id, quantity := ci.quantity,
            price_at_time := productPrice db ci.product_id }),
        []) := by
  induction cart with
  | nil => simp [checkoutScan, cartSubtotal]
  | cons ci rest ih =>
    have hhd := hval ci (List.mem_cons_self _ _)
    have htl := ih (fun c hc => hval c (List.mem_cons_of_mem _ hc))
    unfold lineValidB at hhd
    cases hp : productFind db ci.product_id with
    | none => rw [hp] at hhd; simp at hhd
    | some p =>
      rw [hp] at hhd
      rcases Bool.and_eq_true_iff.mp hhd with ⟨ha, hle⟩
      have hle' : ci.quantity ≤ p.stock_quantity := of_decide_eq_true hle
      have hs : ¬ p.stock_quantity < ci.quantity := not_lt.mpr hle'
      have hid : p.id = ci.product_id := by
        have := List.find?_some hp
        simpa using this
      have hprice : productPrice db ci.product_id = p.price := by
        simp [productPrice, hp]
      simp [checkoutScan, hp, ha, hs, htl, cartSubtotal, hprice, hid]

theorem checkoutScan_item_sound {db : DB} {cart : List CartItem} {d : ItemData}
    (hd : d ∈ (checkoutScan db cart).2.1) :
    ∃ p, productFind db d.product_id = some p ∧ p.is_active = true ∧
      d.quantity ≤ p.stock_quantity ∧ d.price_at_time = p.price := by
  induction cart with
  | nil => simp [checkoutScan] at hd
  | cons ci rest ih =>
    cases hp : productFind db ci.product_id with
    | none =>
      rw [checkoutScan, hp] at hd
      exact ih hd
    | some p =>
      rw [checkoutScan, hp] at hd
      by_cases ha : p.is_active
      · by_cases hs : p.stock_quantity < ci.quantity
        · simp only [ha, Bool.not_true, Bool.false_eq_true, if_false, hs, if_true] at hd
          exact ih hd
        · simp only [ha, Bool.not_true, Bool.false_eq_true, if_false, hs, if_false] at hd
          rcases List.mem_cons.mp hd with h | h
          · subst h
            have hid : p.id = ci.product_id := by
              have := List.find?_some hp; simpa using this
            exact ⟨p, by simpa [hid] using hp, ha, le_of_not_lt hs, rfl⟩
          · exact ih h
      · simp only [Bool.not_eq_true] at ha
        simp only [ha, Bool.not_false, if_true] at hd
        exact ih hd

theorem checkoutScan_pids_sublist (db : DB) (cart : List CartItem) :
    ((checkoutScan db cart).2.1.map (fun d => d.product_id)).Sublist
      (cart.map (fun ci => ci.product_id)) := by
  induction cart with
  | nil => simp [checkoutScan]
  | cons ci rest ih =>
    rw [List.map_cons]
    cases hp : productFind db ci.product_id with
    | none =>
      rw [checkoutScan, hp]
      exact ih.trans (List.sublist_cons_self _ _)
    | some p =>
      rw [checkoutScan, hp]
      by_cases ha : p.is_active
      · by_cases hs : p.stock_quantity < ci.quantity
        · simp only [ha, Bool.not_true, Bool.false_eq_true, if_false, hs, if_true]
          exact ih.trans (List.sublist_cons_self _ _)
        · simp only [ha, Bool.not_true, Bool.false_eq_true, if_false, hs, if_false]
          have hid : p.id = ci.product_id := by
            have := List.find?_some hp; simpa using this
          rw [List.map_cons]
          simpa [hid] using ih.cons₂ ci.product_id
      · simp only [Bool.not_eq_true] at ha
        simp only [ha, Bool.not_false, if_true]
        exact ih.trans (List.sublist_cons_self _ _)

theorem checkoutScan_skip_missing (db : DB) (cart : List CartItem) :
    checkoutScan db cart =
      checkoutScan db
        (cart.filter (fun ci => (productFind db ci.product_id).isSome)) := by
  induction cart with
  | nil => rfl
  | cons ci rest ih =>
    rw [List.filter_cons]
    cases hp : productFind db ci.product_id with
    | none =>
      simp only [hp, Option.isSome_none, Bool.false_eq_true, if_false]
      rw [checkoutScan, hp]
      exact ih
    | some p =>
      simp only [hp, Option.isSome_some, if_true]
      rw [checkoutScan, hp, checkoutScan, hp, ih]

/-! ### Lemmas about the stock-deduction loop -/

theorem decStocks_find?_not_mem {ps : List Product} {data : List ItemData} {pid : Nat}
    (h : ∀ d ∈ data, d.product_id ≠ pid) :
    (decStocks ps data).find? (fun p => p.id == pid) =
      ps.find? (fun p => p.id == pid) := by
  induction data generalizing ps with
  | nil => rfl
  | cons d rest ih =>
    rw [decStocks, ih (fun e he => h e (List.mem_cons_of_mem _ he))]
    apply find?_updateFirst_other
    · intro x; rfl
    · intro x hx
      have hxd : x.id = d.product_id := by simpa using hx
      have hne : d.product_id ≠ pid := h d (List.mem_cons_self _ _)
      simp [hxd, hne]

theorem decStocks_find?_mem {ps : List Product} {data : List ItemData}
    (hnd : (data.map (fun d => d.product_id)).Nodup)
    {d : ItemData} (hd : d ∈ data) :
    (decStocks ps data).find? (fun p => p.id == d.product_id) =
      (ps.find? (fun p => p.id == d.product_id)).map
        (fun p => { p with stock_quantity := p.stock_quantity - d.quantity }) := by
  induction data generalizing ps with
  | nil => simp at hd
  | cons e rest ih =>
    rcases List.nodup_cons.mp hnd with ⟨hnotin, hnd'⟩
    rcases List.mem_cons.mp hd with h | h
    · subst h
      have hrest : ∀ x ∈ rest, x.product_id ≠ d.product_id := by
        intro x hx hEq
        have : d.product_id ∈ rest.map (fun y => y.product_id) := by
          rw [← hEq]; exact List.mem_map_of_mem _ hx
        exact hnotin this
      rw [decStocks, decStocks_find?_not_mem hrest]
      apply find?_updateFirst_self
      intro x; rfl
    · have hne : e.product_id ≠ d.product_id := by
        intro hEq
        have : e.product_id ∈ rest.map (fun y => y.product_id) := by
          rw [hEq]; exact List.mem_map_of_mem _ h
        exact hnotin this
      rw [decStocks, ih hnd' h]
      congr 1
      apply find?_updateFirst_other
      · intro x; rfl
      · intro x hx
        have hxe : x.id = e.product_id := by simpa using hx
        simp [hxe, hne]

theorem decStocks_stock_nonneg {ps : List Product} {data : List ItemData}
    (hps : ∀ p ∈ ps, 0 ≤ p.stock_quantity)
    (hval : ∀ d ∈ data, ∃ p, ps.find? (fun x => x.id == d.product_id) = some p ∧
      d.quantity ≤ p.stock_quantity)
    (hnd : (data.map (fun d => d.product_id)).Nodup) :
    ∀ p ∈ decStocks ps data, 0 ≤ p.stock_quantity := by
  induction data generalizing ps with
  | nil => exact hps
  | cons d rest ih =>
    rcases List.nodup_cons.mp hnd with ⟨hnotin, hnd'⟩
    rw [decStocks]
    refine ih ?_ ?_ hnd'
    · intro p hp
      rcases mem_updateFirst hp with h | ⟨x, hx, hpx⟩
      · exact hps p h
      · subst hpx
        rcases hval d (List.mem_cons_self _ _) with ⟨y, hy, hqy⟩
        rw [hx] at hy
        cases hy
        simpa using sub_nonneg.mpr hqy
    · intro e he
      rcases hval e (List.mem_cons_of_mem _ he) with ⟨p, hp, hq⟩
      refine ⟨p, ?_, hq⟩
      rw [← hp]
      apply find?_updateFirst_other
      · intro x; rfl
      · intro x hx
        have hxd : x.id = d.product_id := by simpa using hx
        have hne : d.product_id ≠ e.product_id := by
          intro hEq
          have : d.product_id ∈ rest.map (fun y => y.product_id) := by
            rw [hEq]; exact List.mem_map_of_mem _ he
          exact hnotin this
        simp [hxd, hne]

/-! ### Shape lemmas for each operation's effect on the store -/

theorem add_to_cart_cartItems (uid pid : Nat) (q : Int) (db : DB) :
    (add_to_cart uid pid q db).2.2.cartItems = db.cartItems ∨
    (∃ v, (add_to_cart uid pid q db).2.2.cartItems =
      updateFirst (fun c => c.user_id == uid && c.product_id == pid)
        (fun c => { c with quantity := v }) db.cartItems) ∨
    (cartFind db uid pid = none ∧
      (add_to_cart uid pid q db).2.2.cartItems =
        db.cartItems ++
          [({ id := db.nextCartItemId, user_id := uid, product_id := pid,
              quantity := q } : CartItem)]) := by
  simp only [add_to_cart]
  by_cases h0 : q ≤ 0
  · rw [if_pos h0]; exact Or.inl rfl
  rw [if_neg h0]
  cases hap : activeProductFind db pid with
  | none => exact Or.inl rfl
  | some product =>
    dsimp only
    by_cases hs : product.stock_quantity < q
    · rw [if_pos hs]; exact Or.inl rfl
    rw [if_neg hs]
    cases hcf : cartFind db uid pid with
    | some ci =>
      dsimp only
      by_cases hs2 : product.stock_quantity < ci.quantity + q
      · rw [if_pos hs2]; exact Or.inl rfl
      · rw [if_neg hs2]; exact Or.inr (Or.inl ⟨ci.quantity + q, rfl⟩)
    | none => exact Or.inr (Or.inr ⟨rfl, rfl⟩)

theorem remove_from_cart_cartItems (uid ciid : Nat) (db : DB) :
    (remove_from_cart uid ciid db).2.2.cartItems = db.cartItems ∨
    (remove_from_cart uid ciid db).2.2.cartItems =
      removeFirst (fun c => c.id == ciid && c.user_id == uid) db.cartItems := by
  simp only [remove_from_cart]
  cases hcf : db.cartItems.find? (fun c => c.id == ciid && c.user_id == uid) with
  | none => exact Or.inl rfl
  | some ci => exact Or.inr rfl

theorem update_cart_item_cartItems (uid ciid : Nat) (q : Int) (db : DB) :
    (update_cart_item uid ciid q db).2.2.cartItems = db.cartItems ∨
    (update_cart_item uid ciid q db).2.2.cartItems =
      removeFirst (fun c => c.id == ciid && c.user_id == uid) db.cartItems ∨
    (∃ v, (update_cart_item uid ciid q db).2.2.cartItems =
      updateFirst (fun c => c.id == ciid && c.user_id == uid)
        (fun c => { c with quantity := v }) db.cartItems) := by
  simp only [update_cart_item]
  by_cases h0 : q ≤ 0
  · rw [if_pos h0]
    rcases remove_from_cart_cartItems uid ciid db with h | h
    · exact Or.inl h
    · exact Or.inr (Or.inl h)
  rw [if_neg h0]
  cases hcf : db.cartItems.find? (fun c => c.id == ciid && c.user_id == uid) with
  | none => exact Or.inl rfl
  | some ci =>
    dsimp only
    cases hp : productFind db ci.product_id with
    | none => exact Or.inl rfl
    | some product =>
      dsimp only
      by_cases hs : product.stock_quantity < q
      · rw [if_pos hs]; exact Or.inl rfl
      · rw [if_neg hs]; exact Or.inr (Or.inr ⟨q, rfl⟩)

theorem checkout_shape (uid : Nat) (addr : String) (db : DB) :
    (checkout uid addr db).2 = db ∨
    ((checkout uid addr db).2.products =
        decStocks db.products (checkoutScan db (userCart db uid)).2.1 ∧
      (checkout uid addr db).2.cartItems =
        db.cartItems.filter (fun c => !(c.user_id == uid)) ∧
      (∃ o, (checkout uid addr db).2.orders = db.orders ++ [o]) ∧
      (checkout uid addr db).2.orderItems =
        db.orderItems ++
          mkOrderItems db.nextOrderId db.nextOrderItemId
            (checkoutScan db (userCart db uid)).2.1) := by
  simp only [checkout]
  by_cases he : (userCart db uid).isEmpty
  · rw [if_pos he]; exact Or.inl rfl
  rw [if_neg he]
  by_cases herr : (checkoutScan db (userCart db uid)).2.2.isEmpty
  · rw [if_neg (by simp [herr])]
    exact Or.inr ⟨rfl, rfl, ⟨_, rfl⟩, rfl⟩
  · rw [if_pos (by simp [herr])]
    exact Or.inl rfl

theorem add_to_cart_products (uid pid : Nat) (q : Int) (db : DB) :
    (add_to_cart uid pid q db).2.2.products = db.products := by
  simp only [add_to_cart]
  repeat' split
  all_goals rfl

theorem remove_from_cart_products (uid ciid : Nat) (db : DB) :
    (remove_from_cart uid ciid db).2.2.products = db.products := by
  simp only [remove_from_cart]
  repeat' split
  all_goals rfl

theorem update_cart_item_products (uid ciid : Nat) (q : Int) (db : DB) :
    (update_cart_item uid ciid q db).2.2.products = db.products := by
  simp only [update_cart_item]
  repeat' split
  · exact remove_from_cart_products uid ciid db
  all_goals rfl

theorem clear_cart_products (uid : Nat) (db : DB) :
    (clear_cart uid db).2.2.products = db.products := rfl

theorem clear_cart_cartItems (uid : Nat) (db : DB) :
    (clear_cart uid db).2.2.cartItems =
      db.cartItems.filter (fun c => !(c.user_id == uid)) := rfl

/-! ### Preservation of the store invariants by the cart operations -/

theorem cartDistinct_updateFirst {l : List CartItem} {p : CartItem → Bool} {v : Int}
    (h : l.Pairwise (fun a b => a.user_id = b.user_id → a.product_id ≠ b.product_id)) :
    (updateFirst p (fun c => { c with quantity := v }) l).Pairwise
      (fun a b => a.user_id = b.user_id → a.product_id ≠ b.product_id) :=
  pairwise_updateFirst (f := fun c => { c with quantity := v })
    (fun _ _ => ⟨Iff.rfl, Iff.rfl⟩) h

theorem cartDistinct_append_new {l : List CartItem} {uid pid cid : Nat} {q : Int}
    (h : l.Pairwise (fun a b => a.user_id = b.user_id → a.product_id ≠ b.product_id))
    (hnone : l.find? (fun c => c.user_id == uid && c.product_id == pid) = none) :
    (l ++ [({ id := cid, user_id := uid, product_id := pid, quantity := q } : CartItem)]).Pairwise
      (fun a b => a.user_id = b.user_id → a.product_id ≠ b.product_id) := by
  rw [List.pairwise_append]
  refine ⟨h, List.pairwise_singleton _ _, ?_⟩
  intro a ha b hb
  have hb' : b = { id := cid, user_id := uid, product_id := pid, quantity := q } := by
    simpa using hb
  subst hb'
  intro huser
  have hna := List.find?_eq_none.mp hnone a ha
  simp only [Bool.and_eq_true, beq_iff_eq, not_and] at hna
  exact hna (by simpa using huser)

theorem cartDistinct_applyCartOp (op : CartOp) {db : DB} (h : CartDistinct db) :
    CartDistinct (applyCartOp db op) := by
  unfold CartDistinct at *
  cases op with
  | add uid pid q =>
    show (add_to_cart uid pid q db).2.2.cartItems.Pairwise _
    rcases add_to_cart_cartItems uid pid q db with hc | ⟨v, hc⟩ | ⟨hn, hc⟩
    · rw [hc]; exact h
    · rw [hc]; exact cartDistinct_updateFirst h
    · rw [hc]; exact cartDistinct_append_new h hn
  | upd uid ciid q =>
    show (update_cart_item uid ciid q db).2.2.cartItems.Pairwise _
    rcases update_cart_item_cartItems uid ciid q db with hc | hc | ⟨v, hc⟩
    · rw [hc]; exact h
    · rw [hc]; exact List.Pairwise.sublist (removeFirst_sublist _ _) h
    · rw [hc]; exact cartDistinct_updateFirst h
  | rem uid ciid =>
    show (remove_from_cart uid ciid db).2.2.cartItems.Pairwise _
    rcases remove_from_cart_cartItems uid ciid db with hc | hc
    · rw [hc]; exact h
    · rw [hc]; exact List.Pairwise.sublist (removeFirst_sublist _ _) h
  | clear uid =>
    show (clear_cart uid db).2.2.cartItems.Pairwise _
    rw [clear_cart_cartItems]
    exact List.Pairwise.sublist (List.filter_sublist _) h
  | chk uid addr =>
    show (checkout uid addr db).2.cartItems.Pairwise _
    rcases checkout_shape uid addr db with hc | ⟨_, hc, _, _⟩
    · rw [hc]; exact h
    · rw [hc]; exact List.Pairwise.sublist (List.filter_sublist _) h

theorem userCart_pids_nodup {db : DB} (h : CartDistinct db) (uid : Nat) :
    ((userCart db uid).map (fun c => c.product_id)).Nodup := by
  have h1 : (userCart db uid).Pairwise
      (fun a b => a.user_id = b.user_id → a.product_id ≠ b.product_id) :=
    List.Pairwise.sublist (List.filter_sublist _) h
  have h2 : (userCart db uid).Pairwise
      (fun a b => a.product_id ≠ b.product_id) := by
    refine List.Pairwise.imp_of_mem ?_ h1
    intro a b ha hb hab
    have ha' : a.user_id = uid := by simpa using (List.mem_filter.mp ha).2
    have hb' : b.user_id = uid := by simpa using (List.mem_filter.mp hb).2
    exact hab (ha'.trans hb'.symm)
  exact List.pairwise_map.mpr h2

theorem stockOk_checkout (uid : Nat) (addr : String) {db : DB}
    (h : StockOk db) (hcd : CartDistinct db) : StockOk (checkout uid addr db).2 := by
  rcases checkout_shape uid addr db with hc | ⟨hp, _, _, _⟩
  · rw [hc]; exact h
  · unfold StockOk
    rw [hp]
    apply decStocks_stock_nonneg h
    · intro d hd
      rcases checkoutScan_item_sound hd with ⟨p, hp', _, hle, _⟩
      exact ⟨p, hp', hle⟩
    · exact ((userCart_pids_nodup hcd uid).sublist
        (checkoutScan_pids_sublist db (userCart db uid)))

theorem cartInv_applyCartOp (op : CartOp) {db : DB}
    (h : StockOk db ∧ CartDistinct db) :
    StockOk (applyCartOp db op) ∧ CartDistinct (applyCartOp db op) := by
  refine ⟨?_, cartDistinct_applyCartOp op h.2⟩
  cases op with
  | add uid pid q =>
    show StockOk (add_to_cart uid pid q db).2.2
    unfold StockOk
    rw [add_to_cart_products]
    exact h.1
  | upd uid ciid q =>
    show StockOk (update_cart_item uid ciid q db).2.2
    unfold StockOk
    rw [update_cart_item_products]
    exact h.1
  | rem uid ciid =>
    show StockOk (remove_from_cart uid ciid db).2.2
    unfold StockOk
    rw [remove_from_cart_products]
    exact h.1
  | clear uid =>
    show StockOk (clear_cart uid db).2.2
    unfold StockOk
    rw [clear_cart_products]
    exact h.1
  | chk uid addr => exact stockOk_checkout uid addr h.1 h.2

theorem cartInv_applyCartOps (ops : List CartOp) {db : DB}
    (h : StockOk db ∧ CartDistinct db) :
    StockOk (applyCartOps db ops) ∧ CartDistinct (applyCartOps db ops) := by
  induction ops generalizing db with
  | nil => exact h
  | cons op rest ih => exact ih (cartInv_applyCartOp op h)

/-! ### OrderItems are append-only across all operations -/

theorem add_to_cart_orderItems (uid pid : Nat) (q : Int) (db : DB) :
    (add_to_cart uid pid q db).2.2.orderItems = db.orderItems := by
  simp only [add_to_cart]
  repeat' split
  all_goals rfl

theorem remove_from_cart_orderItems (uid ciid : Nat) (db : DB) :
    (remove_from_cart uid ciid db).2.2.orderItems = db.orderItems := by
  simp only [remove_from_cart]
  repeat' split
  all_goals rfl

theorem update_cart_item_orderItems (uid ciid : Nat) (q : Int) (db : DB) :
    (update_cart_item uid ciid q db).2.2.orderItems = db.orderItems := by
  simp only [update_cart_item]
  repeat' split
  · exact remove_from_cart_orderItems uid ciid db
  all_goals rfl

theorem clear_cart_orderItems (uid : Nat) (db : DB) :
    (clear_cart uid db).2.2.orderItems = db.orderItems := rfl

theorem update_order_status_orderItems (uid oid : Nat) (st : OrderStatus) (db : DB) :
    (update_order_status uid oid st db).2.2.orderItems = db.orderItems := by
  simp only [update_order_status]
  repeat' split
  all_goals rfl

theorem update_product_orderItems (uid pid : Nat) (n d : Option String)
    (pr : Option ℚ) (s : Option Int) (cat : Option String) (a : Option Bool)
    (db : DB) : (update_product uid pid n d pr s cat a db).2.orderItems =
      db.orderItems := by
  simp only [update_product]
  repeat' split
  all_goals rfl

theorem applyOp_orderItems (db : DB) (op : Op) :
    ∃ t, (applyOp db op).orderItems = db.orderItems ++ t := by
  cases op with
  | cart c =>
    cases c with
    | add uid pid q =>
      refine ⟨[], ?_⟩
      show (add_to_cart uid pid q db).2.2.orderItems = db.orderItems ++ []
      rw [add_to_cart_orderItems]; simp
    | upd uid ciid q =>
      refine ⟨[], ?_⟩
      show (update_cart_item uid ciid q db).2.2.orderItems = db.orderItems ++ []
      rw [update_cart_item_orderItems]; simp
    | rem uid ciid =>
      refine ⟨[], ?_⟩
      show (remove_from_cart uid ciid db).2.2.orderItems = db.orderItems ++ []
      rw [remove_from_cart_orderItems]; simp
    | clear uid =>
      refine ⟨[], ?_⟩
      show (clear_cart uid db).2.2.orderItems = db.orderItems ++ []
      rw [clear_cart_orderItems]; simp
    | chk uid addr =>
      rcases checkout_shape uid addr db with hc | ⟨_, _, _, hoi⟩
      · refine ⟨[], ?_⟩
        show (checkout uid addr db).2.orderItems = db.orderItems ++ []
        rw [hc]; simp
      · exact ⟨_, hoi⟩
  | updProduct uid pid n d pr s cat a =>
    refine ⟨[], ?_⟩
    show (update_product uid pid n d pr s cat a db).2.orderItems =
      db.orderItems ++ []
    rw [update_product_orderItems]; simp
  | updStatus uid oid st =>
    refine ⟨[], ?_⟩
    show (update_order_status uid oid st db).2.2.orderItems = db.orderItems ++ []
    rw [update_order_status_orderItems]; simp

theorem applyOps_orderItems (db : DB) (ops : List Op) :
    ∃ t, (applyOps db ops).orderItems = db.orderItems ++ t := by
  induction ops generalizing db with
  | nil => exact ⟨[], by simp [applyOps]⟩
  | cons op rest ih =>
    rcases applyOp_orderItems db op with ⟨t1, h1⟩
    rcases ih (applyOp db op) with ⟨t2, h2⟩
    refine ⟨t1 ++ t2, ?_⟩
    show (applyOps (applyOp db op) rest).orderItems = db.orderItems ++ (t1 ++ t2)
    rw [h2, h1, List.append_assoc]

/-! ### The successful-checkout equation -/

theorem mkOrderItems_proj (oid s : Nat) (data : List ItemData) :
    (mkOrderItems oid s data).map
        (fun it => (it.order_id, it.product_id, it.quantity, it.price_at_time)) =
      data.map (fun d => (oid, d.product_id, d.quantity, d.price_at_time)) := by
  induction data generalizing s with
  | nil => rfl
  | cons d rest ih => simp [mkOrderItems, ih]

theorem checkout_success_eq {db : DB} {uid : Nat} (addr : String)
    (hne : userCart db uid ≠ [])
    (hval : ∀ ci ∈ userCart db uid, lineValidB db ci = true) :
    checkout uid addr db =
      (.ok { id := db.nextOrderId, user_id := uid,
             total_amount := cartSubtotal db (userCart db uid) +
               cartSubtotal db (userCart db uid) * TAX_RATE,
             status := .PENDING, shipping_address := addr },
       { db with
           orders := db.orders ++
             [({ id := db.nextOrderId, user_id := uid,
                 total_amount := cartSubtotal db (userCart db uid) +
                   cartSubtotal db (userCart db uid) * TAX_RATE,
                 status := .PENDING, shipping_address := addr } : Order)],
           orderItems := db.orderItems ++
             mkOrderItems db.nextOrderId db.nextOrderItemId
               ((userCart db uid).map (fun ci =>
                 { product_id := ci.product_id, quantity := ci.quantity,
                   price_at_time := productPrice db ci.product_id })),
           products := decStocks db.products
             ((userCart db uid).map (fun ci =>
               { product_id := ci.product_id, quantity := ci.quantity,
                 price_at_time := productPrice db ci.product_id })),
           cartItems := db.cartItems.filter (fun c => !(c.user_id == uid)),
           nextOrderId := db.nextOrderId + 1,
           nextOrderItemId := db.nextOrderItemId + (userCart db uid).length }) := by
  simp only [checkout]
  rw [if_neg (fun h => hne (List.isEmpty_iff.mp h))]
  rw [checkoutScan_of_valid hval]
  rw [if_neg (by simp)]
  simp [List.length_map]

/-! ### Witness stores for the claims -/

/-! ### Claim C1 -/

/-- C1: for every non-empty cart in which at least one line fails checkout
validation (product inactive, or requested quantity exceeds stock), checkout
aborts with the aggregated list of per-line reasons and the store is left
completely unchanged: no Order, no OrderItems, no stock deduction, and the
caller's CartItems remain. -/

theorem checkout_aborts_on_invalid_line (db : DB) (uid : Nat) (addr : String)
    (hbad : ∃ ci ∈ userCart db uid, lineFailsB db ci = true) :
    checkout uid addr db =
      (.err ("Cannot create order due to inventory issues:\n" ++
        String.intercalate "\n" (lineReasons db (userCart db uid))), db) := by
  rcases hbad with ⟨ci, hci, hfail⟩
  have hne : userCart db uid ≠ [] := List.ne_nil_of_mem hci
  have hr : lineReasons db (userCart db uid) ≠ [] := lineReasons_ne_nil hci hfail
  simp only [checkout]
  rw [if_neg (fun h => hne (List.isEmpty_iff.mp h))]
  rw [if_pos ?hcond]
  case hcond =>
    rw [checkoutScan_errs]
    simpa [List.isEmpty_iff] using hr
  rw [checkoutScan_errs]

/-- Witness for C1: a concrete store whose single cart line references an
inactive product; checkout returns the aggregated reason and the store
unchanged. -/

theorem checkout_aborts_on_invalid_line_witness :
    checkout 1 "addr" dbC1w =
      (.err "Cannot create order due to inventory issues:\nA is no longer available.",
        dbC1w) := by
  have h := checkout_aborts_on_invalid_line dbC1w 1 "addr"
    ⟨{ id := 1, user_id := 1, product_id := 1, quantity := 2 }, by decide, by decide⟩
  exact h.trans (by decide)

/-! ### Claim C4 -/

/-- C4: OrderItems are append-only.  Across every sequence of operations of
the subsystem (cart mutations, checkout, product updates including price
changes, order-status updates), the existing OrderItem rows — in particular
their price_at_time snapshots — are preserved unchanged: the resulting
OrderItems table is the old table with only new rows appended, so every
existing OrderItem survives verbatim. -/

theorem orderItems_never_mutated (db : DB) (ops : List Op) :
    (∃ t, (applyOps db ops).orderItems = db.orderItems ++ t) ∧
    ∀ it ∈ db.orderItems, it ∈ (applyOps db ops).orderItems := by
  rcases applyOps_orderItems db ops with ⟨t, ht⟩
  refine ⟨⟨t, ht⟩, fun it hit => ?_⟩
  rw [ht]
  exact List.mem_append_left _ hit

/-! ### Claim C10 -/

/-- C10: for every non-empty cart containing a cart line whose referenced
Product row no longer exists, checkout reports no error for that line — it
is silently excluded from validation, from the created Order's OrderItems,
and from the total: the validation scan of the cart equals the scan of the
cart restricted to lines whose product exists.  If the remaining lines all
pass validation, checkout succeeds: the created Order's items correspond
exactly to the existing-product lines (none for the phantom line), the total
counts only those lines, and ALL the caller's CartItems — including the
phantom one — are deleted.  In the extreme case where every line's product is
missing, the result is an Order with total_amount 0 and zero OrderItems
rather than a validation failure. -/

theorem checkout_skips_missing_products (db : DB) (uid : Nat) (addr : String)
    (hne : userCart db uid ≠ [])
    (_hmiss : ∃ ci ∈ userCart db uid, productFind db ci.product_id = none) :
    checkoutScan db (userCart db uid) =
      checkoutScan db ((userCart db uid).filter
        (fun ci => (productFind db ci.product_id).isSome)) ∧
    ((∀ ci ∈ userCart db uid,
        (productFind db ci.product_id).isSome → lineValidB db ci = true) →
      ∃ o : Order,
        (checkout uid addr db).1 = .ok o ∧
        o.status = .PENDING ∧
        o.shipping_address = addr ∧
        o.total_amount =
          cartSubtotal db ((userCart db uid).filter
            (fun ci => (productFind db ci.product_id).isSome)) *
            (1 + TAX_RATE) ∧
        (∃ newItems,
          (checkout uid addr db).2.orderItems = db.orderItems ++ newItems ∧
          newItems.map (fun it =>
              (it.order_id, it.product_id, it.quantity, it.price_at_time)) =
            ((userCart db uid).filter
              (fun ci => (productFind db ci.product_id).isSome)).map
              (fun ci => (o.id, ci.product_id, ci.quantity,
                productPrice db ci.product_id))) ∧
        userCart (checkout uid addr db).2 uid = [] ∧
        (checkout uid addr db).2.cartItems =
          db.cartItems.filter (fun c => !(c.user_id == uid))) ∧
    ((∀ ci ∈ userCart db uid, productFind db ci.product_id = none) →
      ((checkout uid addr db).1 =
        .ok { id := db.nextOrderId, user_id := uid, total_amount := 0,
              status := .PENDING, shipping_address := addr } ∧
       (checkout uid addr db).2.orderItems = db.orderItems)) := by
  refine ⟨checkoutScan_skip_missing db (userCart db uid), ?_, ?_⟩
  · intro hval
    have hvalF : ∀ ci ∈ (userCart db uid).filter
        (fun ci => (productFind db ci.product_id).isSome),
        lineValidB db ci = true := by
      intro ci hci
      rcases List.mem_filter.mp hci with ⟨hm, hs⟩
      exact hval ci hm hs
    have hscan : checkoutScan db (userCart db uid) =
        (cartSubtotal db ((userCart db uid).filter
            (fun ci => (productFind db ci.product_id).isSome)),
          ((userCart db uid).filter
            (fun ci => (productFind db ci.product_id).isSome)).map (fun ci =>
            { product_id := ci.product_id, quantity := ci.quantity,
              price_at_time := productPrice db ci.product_id }),
          []) := by
      rw [checkoutScan_skip_missing]
      exact checkoutScan_of_valid hvalF
    simp only [checkout]
    rw [if_neg (fun h => hne (List.isEmpty_iff.mp h))]
    rw [hscan]
    rw [if_neg (by simp)]
    refine ⟨_, rfl, rfl, rfl, by dsimp only; ring, ⟨_, rfl, ?_⟩, ?_, rfl⟩
    · rw [mkOrderItems_proj, List.map_map]
      rfl
    · show (db.cartItems.filter (fun c => !(c.user_id == uid))).filter
        (fun c => c.user_id == uid) = []
      rw [List.filter_filter, List.filter_eq_nil_iff]
      intro a _
      cases h : a.user_id == uid <;> simp [h]
  · intro hmissAll
    have hfilter : (userCart db uid).filter
        (fun ci => (productFind db ci.product_id).isSome) = [] := by
      rw [List.filter_eq_nil_iff]
      intro a ha
      rw [hmissAll a ha]
      simp
    have hscan : checkoutScan db (userCart db uid) = (0, [], []) := by
      rw [checkoutScan_skip_missing, hfilter]
      rfl
    refine ⟨?_, ?_⟩
    all_goals
      simp only [checkout]
      rw [if_neg (fun h => hne (List.isEmpty_iff.mp h))]
      rw [hscan]
      rw [if_neg (by simp)]
    · simp
    · simp [mkOrderItems]

/-- Witness for C10: a mixed cart — a valid line (product 1, qty 2) and a
line for the missing product 99 — checks out into an order whose single item
comes from the valid line, with the missing line producing no error and no
item, and the cart fully emptied. -/

theorem checkout_skips_missing_products_witness :
    ∃ o : Order,
      (checkout 1 "addr" dbC10w).1 = .ok o ∧
      (∃ newItems,
        (checkout 1 "addr" dbC10w).2.orderItems =
          dbC10w.orderItems ++ newItems ∧
        newItems.map (fun it =>
            (it.order_id, it.product_id, it.quantity, it.price_at_time)) =
          [(o.id, 1, 2, 10)]) ∧
      userCart (checkout 1 "addr" dbC10w).2 1 = [] := by
  obtain ⟨-, h2, -⟩ := checkout_skips_missing_products dbC10w 1 "addr"
    (by decide)
    ⟨{ id := 2, user_id := 1, product_id := 99, quantity := 3 },
      by decide, by decide⟩
  obtain ⟨o, ho, -, -, -, ⟨ni, hni, hproj⟩, hcart, -⟩ := h2 (by decide)
  refine ⟨o, ho, ⟨ni, hni, ?_⟩, hcart⟩
  rw [hproj]
  have hf : (userCart dbC10w 1).filter
      (fun ci => (productFind dbC10w ci.product_id).isSome) =
      [{ id := 1, user_id := 1, product_id := 1, quantity := 2 }] := rfl
  rw [hf]
  rfl

/-! ### Claim C2 -/

/-- C2: when the cart is non-empty, every line passes validation (product
exists, active, stock covers the quantity), and the cart holds at most one
line per product, checkout succeeds and in one unit: returns the created
Order with status PENDING and the given shipping address, appends exactly
that Order, creates one OrderItem per cart line snapshotting the product's
current price, decrements each referenced product's stock by exactly the
ordered quantity (all other products untouched), and deletes exactly the
caller's CartItems. -/

theorem checkout_success_spec (db : DB) (uid : Nat) (addr : String)
    (hne : userCart db uid ≠ [])
    (hval : ∀ ci ∈ userCart db uid, lineValidB db ci = true)
    (hdist : ((userCart db uid).map (fun c => c.product_id)).Nodup) :
    ∃ o : Order,
      (checkout uid addr db).1 = .ok o ∧
      o.status = .PENDING ∧
      o.shipping_address = addr ∧
      o.user_id = uid ∧
      (checkout uid addr db).2.orders = db.orders ++ [o] ∧
      (∃ newItems,
        (checkout uid addr db).2.orderItems = db.orderItems ++ newItems ∧
        newItems.map (fun it =>
            (it.order_id, it.product_id, it.quantity, it.price_at_time)) =
          (userCart db uid).map (fun ci =>
            (o.id, ci.product_id, ci.quantity, productPrice db ci.product_id))) ∧
      (∀ ci ∈ userCart db uid,
        productFind (checkout uid addr db).2 ci.product_id =
          (productFind db ci.product_id).map (fun p =>
            { p with stock_quantity := p.stock_quantity - ci.quantity })) ∧
      (∀ pid, pid ∉ (userCart db uid).map (fun c => c.product_id) →
        productFind (checkout uid addr db).2 pid = productFind db pid) ∧
      userCart (checkout uid addr db).2 uid = [] ∧
      (∀ c ∈ db.cartItems, c.user_id ≠ uid →
        c ∈ (checkout uid addr db).2.cartItems) := by
  rw [checkout_success_eq addr hne hval]
  have hnd : (((userCart db uid).map (fun ci =>
      ({ product_id := ci.product_id, quantity := ci.quantity,
         price_at_time := productPrice db ci.product_id } : ItemData))).map
        (fun d => d.product_id)).Nodup := by
    rw [List.map_map]
    exact hdist
  refine ⟨_, rfl, rfl, rfl, rfl, rfl, ⟨_, rfl, ?_⟩, ?_, ?_, ?_, ?_⟩
  · rw [mkOrderItems_proj, List.map_map]
    rfl
  · intro ci hci
    exact decStocks_find?_mem hnd (List.mem_map_of_mem _ hci)
  · intro pid hpid
    refine decStocks_find?_not_mem ?_
    intro d hd
    rcases List.mem_map.mp hd with ⟨c, hc, hdc⟩
    subst hdc
    intro hEq
    exact hpid (hEq ▸ List.mem_map_of_mem _ hc)
  · show (db.cartItems.filter (fun c => !(c.user_id == uid))).filter
      (fun c => c.user_id == uid) = []
    rw [List.filter_filter]
    rw [List.filter_eq_nil_iff]
    intro a _
    cases h : a.user_id == uid <;> simp [h]
  · intro c hc hcu
    exact List.mem_filter.mpr ⟨hc, by simp [hcu]⟩

/-- Witness for C2: the spec scenario — Product A with stock 5, cart
quantity 5; checkout succeeds, the stock becomes 0 and the cart empties. -/

theorem checkout_success_spec_witness :
    productFind (checkout 1 "addr" dbC2w).2 1 =
      some { id := 1, business_id := 1, name := "A", price := 10,
             stock_quantity := 0, is_active := true } ∧
    userCart (checkout 1 "addr" dbC2w).2 1 = [] ∧
    ∃ o, (checkout 1 "addr" dbC2w).1 = .ok o ∧ o.status = .PENDING := by
  obtain ⟨o, h1, h2, -, -, -, -, hstock, -, hcart, -⟩ :=
    checkout_success_spec dbC2w 1 "addr" (by decide) (by decide) (by decide)
  refine ⟨?_, hcart, o, h1, h2⟩
  have h := hstock { id := 1, user_id := 1, product_id := 1, quantity := 5 }
    (by exact List.mem_singleton.mpr rfl)
  rw [h]
  rfl

/-! ### Claim C3 -/

/-- C3 counterexample: checkout does not round the stored total to two
decimals.  With one cart line of price 10.01 and quantity 1, the stored
total_amount is 10.8108 (= 27027/2500), while round(subtotal*(1+TAX_RATE), 2)
is 10.81 — the claimed equality fails at this concrete input. -/

theorem checkout_total_not_rounded :
    checkoutTotal? (checkout 1 "addr" dbC3cx).1 = some (27027/2500) ∧
    round2 ((1001/100) * (1 + TAX_RATE)) ≠ 27027/2500 := by
  constructor
  · rw [checkout_success_eq "addr" (by decide) (by decide)]
    show some (cartSubtotal dbC3cx (userCart dbC3cx 1) +
      cartSubtotal dbC3cx (userCart dbC3cx 1) * TAX_RATE) = some (27027/2500)
    have hc : userCart dbC3cx 1 =
        [{ id := 1, user_id := 1, product_id := 1, quantity := 1 }] := rfl
    have hp : productPrice dbC3cx 1 = 1001/100 := rfl
    rw [hc]
    simp only [cartSubtotal, List.map_cons, List.map_nil, List.sum_cons,
      List.sum_nil, hp, TAX_RATE, Option.some.injEq]
    norm_num
  · unfold round2 TAX_RATE
    have hfl : ⌊(1001/100 : ℚ) * (1 + 8/100) * 100 + 1/2⌋ = (1081 : ℤ) := by
      rw [Int.floor_eq_iff]
      norm_num
    rw [hfl]
    norm_num

/-- C3 amended: for every successful checkout the stored Order.total_amount
equals subtotal × (1 + TAX_RATE) exactly, with no rounding, where subtotal is
the sum of current product price × quantity over the cart lines. -/

theorem checkout_total_formula (db : DB) (uid : Nat) (addr : String)
    (hne : userCart db uid ≠ [])
    (hval : ∀ ci ∈ userCart db uid, lineValidB db ci = true) :
    ∃ o, (checkout uid addr db).1 = .ok o ∧
      o.total_amount = cartSubtotal db (userCart db uid) * (1 + TAX_RATE) := by
  rw [checkout_success_eq addr hne hval]
  exact ⟨_, rfl, by ring⟩

/-- Witness for C3 (amended): price 10.00, quantity 2 — subtotal 20.00,
stored total 21.60 (= 108/5). -/

theorem checkout_total_formula_witness :
    ∃ o, (checkout 1 "addr" dbC3w).1 = .ok o ∧ o.total_amount = 108/5 := by
  obtain ⟨o, h1, h2⟩ := checkout_total_formula dbC3w 1 "addr" (by decide) (by decide)
  refine ⟨o, h1, ?_⟩
  rw [h2]
  have hc : userCart dbC3w 1 =
      [{ id := 1, user_id := 1, product_id := 1, quantity := 2 }] := rfl
  have hp : productPrice dbC3w 1 = 10 := rfl
  rw [hc]
  simp only [cartSubtotal, List.map_cons, List.map_nil, List.sum_cons,
    List.sum_nil, hp, TAX_RATE]
  norm_num

/-! ### Claim C5 -/

/-- C5 counterexample: from a store in which every stock_quantity is
non-negative (the claim's only stated precondition) but one user's cart
holds two rows for the same product, a single checkout drives the product's
stock to -1: each duplicate line is validated separately against stock 5,
both pass, and both are deducted. -/

theorem stock_negative_after_duplicate_lines :
    StockOk dbC5cx ∧
    ¬ StockOk (applyCartOps dbC5cx [CartOp.chk 1 "addr"]) := by
  constructor
  · decide
  · decide

/-- C5 amended: if additionally no user's cart holds two rows for the same
product (an invariant that all five operations themselves preserve), then
after any sequence of add_to_cart / update_cart_item / remove_from_cart /
clear_cart / checkout operations every Product.stock_quantity stays ≥ 0. -/

theorem stock_nonneg_invariant (db : DB) (ops : List CartOp)
    (h1 : StockOk db) (h2 : CartDistinct db) :
    StockOk (applyCartOps db ops) :=
  (cartInv_applyCartOps ops ⟨h1, h2⟩).1

/-- Witness for C5 (amended): a concrete operation sequence ending in a
checkout keeps the stock non-negative. -/

theorem stock_nonneg_invariant_witness :
    StockOk (applyCartOps dbC5w
      [CartOp.add 1 1 2, CartOp.chk 1 "a", CartOp.add 1 1 1]) :=
  stock_nonneg_invariant dbC5w
    [CartOp.add 1 1 2, CartOp.chk 1 "a", CartOp.add 1 1 1]
    (by decide) (by decide)

/-! ### Claim C6 -/

/-- C6: add_to_cart with positive quantity q on an existing active product.
If the product is already in the caller's cart (a row with quantity ≥ 0),
the summed quantity is checked against stock: when it exceeds stock the call
fails reporting the available amount and the store is unchanged; otherwise
exactly that row is updated to the summed quantity (same number of rows, all
other tables untouched, unrelated rows kept).  If the product is not in the
cart, q itself is checked against stock: on failure the store is unchanged
and the available amount is reported; on success exactly one new row with
quantity q is appended. -/

theorem add_to_cart_spec (db : DB) (uid pid : Nat) (q : Int) (p : Product)
    (hq : 0 < q) (hp : activeProductFind db pid = some p) :
    (∀ ci, cartFind db uid pid = some ci → 0 ≤ ci.quantity →
      (if p.stock_quantity < ci.quantity + q then
        add_to_cart uid pid q db =
          (false,
            (if p.stock_quantity < q then "Not enough stock. Available: "
              else "Cannot add more. Maximum available: ") ++
              toString p.stock_quantity, db)
       else
        ((add_to_cart uid pid q db).1 = true ∧
         (add_to_cart uid pid q db).2.2.products = db.products ∧
         (add_to_cart uid pid q db).2.2.orders = db.orders ∧
         (add_to_cart uid pid q db).2.2.orderItems = db.orderItems ∧
         cartFind (add_to_cart uid pid q db).2.2 uid pid =
           some { ci with quantity := ci.quantity + q } ∧
         (add_to_cart uid pid q db).2.2.cartItems.length =
           db.cartItems.length ∧
         (∀ c ∈ db.cartItems, ¬(c.user_id = uid ∧ c.product_id = pid) →
           c ∈ (add_to_cart uid pid q db).2.2.cartItems)))) ∧
    (cartFind db uid pid = none →
      (if p.stock_quantity < q then
        add_to_cart uid pid q db =
          (false, "Not enough stock. Available: " ++ toString p.stock_quantity,
            db)
       else
        ((add_to_cart uid pid q db).1 = true ∧
         (add_to_cart uid pid q db).2.2 =
           { db with
               cartItems := db.cartItems ++
                 [({ id := db.nextCartItemId, user_id := uid, product_id := pid,
                     quantity := q } : CartItem)],
               nextCartItemId := db.nextCartItemId + 1 }))) := by
  have hq0 : ¬ q ≤ 0 := not_le.mpr hq
  constructor
  · intro ci hci hciq
    by_cases hlt : p.stock_quantity < ci.quantity + q
    · rw [if_pos hlt]
      simp only [add_to_cart]
      rw [if_neg hq0, hp]
      dsimp only
      by_cases h1 : p.stock_quantity < q
      · rw [if_pos h1, if_pos h1]
      · rw [if_neg h1, hci]
        dsimp only
        rw [if_pos hlt, if_neg h1]
    · rw [if_neg hlt]
      have h1 : ¬ p.stock_quantity < q := by omega
      simp only [add_to_cart]
      rw [if_neg hq0, hp]
      dsimp only
      rw [if_neg h1, hci]
      dsimp only
      rw [if_neg hlt]
      refine ⟨rfl, rfl, rfl, rfl, ?_, ?_, ?_⟩
      · show (updateFirst (fun c => c.user_id == uid && c.product_id == pid)
            (fun c => { c with quantity := ci.quantity + q })
            db.cartItems).find?
            (fun c => c.user_id == uid && c.product_id == pid) = _
        rw [find?_updateFirst_self
          (p := fun c : CartItem => c.user_id == uid && c.product_id == pid)
          (f := fun c : CartItem => { c with quantity := ci.quantity + q })
          (fun x => rfl)]
        have hci' : db.cartItems.find?
            (fun c => c.user_id == uid && c.product_id == pid) = some ci := hci
        rw [hci']
        rfl
      · exact length_updateFirst _ _ _
      · intro c hc hcup
        apply mem_updateFirst_of_neg _ hc
        by_cases h2 : c.user_id = uid
        · have h3 : c.product_id ≠ pid := fun h => hcup ⟨h2, h⟩
          simp [h2, h3]
        · simp [h2]
  · intro hnone
    by_cases h1 : p.stock_quantity < q
    · rw [if_pos h1]
      simp only [add_to_cart]
      rw [if_neg hq0, hp]
      dsimp only
      rw [if_pos h1]
    · rw [if_neg h1]
      simp only [add_to_cart]
      rw [if_neg hq0, hp]
      dsimp only
      rw [if_neg h1, hnone]
      exact ⟨rfl, rfl⟩

/-- Witness for C6: the spec scenario — Product B with stock 3, requesting
quantity 5 fails reporting the 3 available units and leaves the store
unchanged. -/

theorem add_to_cart_spec_witness :
    add_to_cart 1 2 5 dbC6w =
      (false, "Not enough stock. Available: " ++ toString (3 : Int), dbC6w) := by
  have h := (add_to_cart_spec dbC6w 1 2 5
      { id := 2, business_id := 1, name := "B", price := 7,
        stock_quantity := 3, is_active := true }
      (by decide) (by rfl)).2 (by rfl)
  rw [if_pos (by decide)] at h
  exact h

/-! ### Business-product membership helpers -/

theorem mem_businessPids {db : DB} {bid x : Nat} :
    x ∈ businessPids db bid ↔
      ∃ p ∈ db.products, p.business_id = bid ∧ p.id = x := by
  unfold businessPids
  constructor
  · intro hx
    rcases List.mem_map.mp hx with ⟨p, hp, hpx⟩
    rcases List.mem_filter.mp hp with ⟨hpm, hpb⟩
    exact ⟨p, hpm, by simpa using hpb, hpx⟩
  · rintro ⟨p, hpm, hpb, hpx⟩
    exact List.mem_map.mpr ⟨p, List.mem_filter.mpr ⟨hpm, by simpa using hpb⟩, hpx⟩

/-! ### Claim C7 -/

/-- C7 counterexample: the caller (user 1) does not own business 2, yet
view_merchant_order_details returns business 2's OrderItems of the order
instead of a Forbidden/empty result — the source performs no ownership check
on business_id. -/

theorem view_merchant_order_details_ignores_ownership :
    dbC7cx.businesses.find? (fun b => b.id == 2 && b.owner_id == 1) = none ∧
    (view_merchant_order_details 1 1 2 dbC7cx).2 =
      [{ id := 1, order_id := 1, product_id := 1, quantity := 1,
         price_at_time := 5 }] := by
  constructor
  · rfl
  · rfl

/-- C7 amended: view_merchant_order_details performs no ownership check on
business_id.  For every caller uid (owner or not), the returned OrderItems
are exactly the order's items referencing the given business's products —
non-empty whenever the business has a matching item in an existing order —
and the Order is returned precisely when that item set is non-empty. -/

theorem view_merchant_order_details_no_ownership_check (db : DB)
    (uid oid bid : Nat) :
    (∀ it, it ∈ (view_merchant_order_details uid oid bid db).2 ↔
      ((∃ o, orderFind db oid = some o) ∧ it ∈ db.orderItems ∧
        it.order_id = oid ∧
        ∃ p ∈ db.products, p.business_id = bid ∧ p.id = it.product_id)) ∧
    (∀ o, (view_merchant_order_details uid oid bid db).1 = some o ↔
      (orderFind db oid = some o ∧
        (view_merchant_order_details uid oid bid db).2 ≠ [])) := by
  by_cases hpe : (businessPids db bid).isEmpty
  · have hres : view_merchant_order_details uid oid bid db = (none, []) := by
      simp only [view_merchant_order_details]
      rw [if_pos hpe]
    rw [hres]
    constructor
    · intro it
      simp only [List.not_mem_nil, false_iff]
      rintro ⟨-, -, -, p, hp, hpb, hpid⟩
      have hm : p.id ∈ businessPids db bid := mem_businessPids.mpr ⟨p, hp, hpb, rfl⟩
      rw [List.isEmpty_iff.mp hpe] at hm
      simp at hm
    · intro o
      simp
  · cases ho : orderFind db oid with
    | none =>
      have hres : view_merchant_order_details uid oid bid db = (none, []) := by
        simp only [view_merchant_order_details]
        rw [if_neg hpe, ho]
      rw [hres]
      constructor
      · intro it
        simp only [List.not_mem_nil, false_iff]
        rintro ⟨⟨o, hoo⟩, -⟩
        exact absurd hoo (by simp)
      · intro o
        simp [ho]
    | some o0 =>
      by_cases hie : (db.orderItems.filter (fun it =>
          it.order_id == oid && (businessPids db bid).contains
            it.product_id)).isEmpty
      · have hres : view_merchant_order_details uid oid bid db = (none, []) := by
          simp only [view_merchant_order_details]
          rw [if_neg hpe, ho]
          dsimp only
          rw [if_pos hie]
        rw [hres]
        constructor
        · intro it
          simp only [List.not_mem_nil, false_iff]
          rintro ⟨-, hmm, hoid, p, hp, hpb, hpid⟩
          have hmem : it ∈ db.orderItems.filter (fun it =>
              it.order_id == oid && (businessPids db bid).contains
                it.product_id) := by
            refine List.mem_filter.mpr ⟨hmm, ?_⟩
            refine Bool.and_eq_true_iff.mpr ⟨by simpa using hoid, ?_⟩
            exact List.elem_iff.mpr (mem_businessPids.mpr ⟨p, hp, hpb, hpid⟩)
          rw [List.isEmpty_iff.mp hie] at hmem
          simp at hmem
        · intro o
          simp
      · have hres : view_merchant_order_details uid oid bid db =
            (some o0, db.orderItems.filter (fun it =>
              it.order_id == oid && (businessPids db bid).contains
                it.product_id)) := by
          simp only [view_merchant_order_details]
          rw [if_neg hpe, ho]
          dsimp only
          rw [if_neg hie]
        rw [hres]
        constructor
        · intro it
          constructor
          · intro hmem
            rcases List.mem_filter.mp hmem with ⟨hmm, hcond⟩
            rcases Bool.and_eq_true_iff.mp hcond with ⟨hoid, hcont⟩
            exact ⟨⟨o0, rfl⟩, hmm, by simpa using hoid,
              mem_businessPids.mp (List.elem_iff.mp hcont)⟩
          · rintro ⟨-, hmm, hoid, p, hp, hpb, hpid⟩
            refine List.mem_filter.mpr ⟨hmm, ?_⟩
            refine Bool.and_eq_true_iff.mpr ⟨by simpa using hoid, ?_⟩
            exact List.elem_iff.mpr (mem_businessPids.mpr ⟨p, hp, hpb, hpid⟩)
        · intro o
          constructor
          · intro hsome
            have heq : o0 = o := by simpa using hsome
            subst heq
            refine ⟨rfl, ?_⟩
            intro hnil
            have hnil' : db.orderItems.filter (fun it =>
                it.order_id == oid && (businessPids db bid).contains
                  it.product_id) = [] := hnil
            rw [hnil'] at hie
            simp at hie
          · rintro ⟨hoo, -⟩
            exact hoo

/-- Witness for C7 (amended): a non-owner caller (user 5) receives the order
and business 2's item. -/

theorem view_merchant_order_details_no_ownership_check_witness :
    (view_merchant_order_details 5 1 2 dbC7w).1 =
      some { id := 1, user_id := 3, total_amount := 5,
             status := OrderStatus.PENDING, shipping_address := "a" } := by
  have h := (view_merchant_order_details_no_ownership_check dbC7w 5 1 2).2
    { id := 1, user_id := 3, total_amount := 5,
      status := OrderStatus.PENDING, shipping_address := "a" }
  apply h.mpr
  refine ⟨rfl, ?_⟩
  have h2 : (view_merchant_order_details 5 1 2 dbC7w).2 =
      [{ id := 1, order_id := 1, product_id := 1, quantity := 1,
         price_at_time := 5 }] := rfl
  rw [h2]
  simp

/-! ### Claim C8 -/

/-- C8: view_merchant_orders returns [] when the caller does not own the
business, and for an owner it returns exactly the distinct set of Orders
containing at least one OrderItem referencing one of the business's
products. -/

theorem view_merchant_orders_spec (db : DB) (uid bid : Nat) :
    (db.businesses.find? (fun b => b.id == bid && b.owner_id == uid) = none →
      view_merchant_orders uid bid db = []) ∧
    (db.businesses.find? (fun b => b.id == bid && b.owner_id == uid) ≠ none →
      ∀ o, o ∈ view_merchant_orders uid bid db ↔
        (o ∈ db.orders ∧ ∃ it ∈ db.orderItems, it.order_id = o.id ∧
          ∃ p ∈ db.products, p.business_id = bid ∧ p.id = it.product_id)) := by
  constructor
  · intro hnone
    simp only [view_merchant_orders]
    rw [hnone]
  · intro hsome o
    rcases Option.ne_none_iff_exists'.mp hsome with ⟨b, hb⟩
    simp only [view_merchant_orders]
    rw [hb]
    dsimp only
    by_cases hpe : (businessPids db bid).isEmpty
    · rw [if_pos hpe]
      simp only [List.not_mem_nil, false_iff]
      rintro ⟨-, it, -, -, p, hp, hpb, hpid⟩
      have hm : p.id ∈ businessPids db bid := mem_businessPids.mpr ⟨p, hp, hpb, rfl⟩
      rw [List.isEmpty_iff.mp hpe] at hm
      simp at hm
    · rw [if_neg hpe]
      constructor
      · intro hmem
        rcases List.mem_filter.mp hmem with ⟨hom, hcond⟩
        rcases List.any_eq_true.mp hcond with ⟨it, hit, hc2⟩
        rcases Bool.and_eq_true_iff.mp hc2 with ⟨h3, h4⟩
        exact ⟨hom, it, hit, by simpa using h3,
          mem_businessPids.mp (List.elem_iff.mp h4)⟩
      · rintro ⟨hom, it, hit, hoid, p, hp, hpb, hpid⟩
        refine List.mem_filter.mpr ⟨hom, ?_⟩
        refine List.any_eq_true.mpr ⟨it, hit, ?_⟩
        refine Bool.and_eq_true_iff.mpr ⟨by simpa using hoid, ?_⟩
        exact List.elem_iff.mpr (mem_businessPids.mpr ⟨p, hp, hpb, hpid⟩)

/-- Witness for C8: user 1 (owner of business 1) sees order 1 (which
contains business 1's product); user 9, who does not own business 1, gets
the empty list. -/

theorem view_merchant_orders_spec_witness :
    ({ id := 1, user_id := 7, total_amount := 5, status := OrderStatus.PENDING,
       shipping_address := "a" } : Order) ∈ view_merchant_orders 1 1 dbC8w ∧
    view_merchant_orders 9 1 dbC8w = [] := by
  constructor
  · apply ((view_merchant_orders_spec dbC8w 1 1).2 (by decide) _).mpr
    refine ⟨List.mem_cons_self _ _, ?_⟩
    refine ⟨{ id := 1, order_id := 1, product_id := 1, quantity := 1,
              price_at_time := 5 }, List.mem_cons_self _ _, rfl, ?_⟩
    exact ⟨{ id := 1, business_id := 1, name := "P1", price := 5,
             stock_quantity := 10, is_active := true },
           List.mem_cons_self _ _, rfl, rfl⟩
  · exact (view_merchant_orders_spec dbC8w 9 1).1 rfl

/-! ### Claim C9 -/

/-- C9: update_order_status succeeds iff the caller owns a Business, that
business has at least one Product, the target order contains at least one
OrderItem referencing one of those products, and the order exists.  On
failure the store is completely unchanged; on success only the target
order's status is overwritten — unconditionally, for every new status — and
everything else (products, cart, order items, other orders) is untouched. -/

theorem update_order_status_spec (db : DB) (uid oid : Nat) (st : OrderStatus) :
    ((update_order_status uid oid st db).1 = true ↔
      (∃ b, businessOfOwner db uid = some b ∧
        (∃ p ∈ db.products, p.business_id = b.id) ∧
        (∃ it ∈ db.orderItems, it.order_id = oid ∧
          ∃ p ∈ db.products, p.business_id = b.id ∧ p.id = it.product_id) ∧
        (∃ o, orderFind db oid = some o))) ∧
    ((update_order_status uid oid st db).1 = false →
      (update_order_status uid oid st db).2.2 = db) ∧
    ((update_order_status uid oid st db).1 = true →
      ((update_order_status uid oid st db).2.2.products = db.products ∧
       (update_order_status uid oid st db).2.2.cartItems = db.cartItems ∧
       (update_order_status uid oid st db).2.2.orderItems = db.orderItems ∧
       (∀ o, orderFind db oid = some o →
         orderFind (update_order_status uid oid st db).2.2 oid =
           some { o with status := st }) ∧
       (∀ o ∈ db.orders, o.id ≠ oid →
         o ∈ (update_order_status uid oid st db).2.2.orders))) := by
  simp only [update_order_status]
  cases hb : businessOfOwner db uid with
  | none =>
    dsimp only
    refine ⟨?_, fun _ => rfl, fun h => by simp at h⟩
    constructor
    · intro h; simp at h
    · rintro ⟨b, hbb, -⟩
      exact absurd hbb (by simp)
  | some b =>
    dsimp only
    by_cases hpe : (businessPids db b.id).isEmpty
    · rw [if_pos hpe]
      refine ⟨?_, fun _ => rfl, fun h => by simp at h⟩
      constructor
      · intro h; simp at h
      · rintro ⟨b', hbb, ⟨p, hp, hpb⟩, -, -⟩
        have hbb' : b = b' := by simpa using hbb
        subst hbb'
        have hm : p.id ∈ businessPids db b.id :=
          mem_businessPids.mpr ⟨p, hp, hpb, rfl⟩
        rw [List.isEmpty_iff.mp hpe] at hm
        simp at hm
    · rw [if_neg hpe]
      by_cases hany : db.orderItems.any (fun it =>
          it.order_id == oid &&
            (businessPids db b.id).contains it.product_id)
      · rw [if_neg (by rw [hany]; decide)]
        cases ho : orderFind db oid with
        | none =>
          dsimp only
          refine ⟨?_, fun _ => rfl, fun h => by simp at h⟩
          constructor
          · intro h; simp at h
          · rintro ⟨b', hbb, -, -, o, hoo⟩
            exact absurd hoo (by simp)
        | some o0 =>
          dsimp only
          refine ⟨?_, ?_, ?_⟩
          · constructor
            · intro _
              refine ⟨b, rfl, ?_, ?_, o0, rfl⟩
              · have hne : businessPids db b.id ≠ [] :=
                  fun h => hpe (by simp [h])
                rcases List.exists_mem_of_ne_nil _ hne with ⟨x, hx⟩
                rcases mem_businessPids.mp hx with ⟨p, hp, hpb, -⟩
                exact ⟨p, hp, hpb⟩
              · rcases List.any_eq_true.mp hany with ⟨it, hit, hc⟩
                rcases Bool.and_eq_true_iff.mp hc with ⟨h3, h4⟩
                exact ⟨it, hit, by simpa using h3,
                  mem_businessPids.mp (List.elem_iff.mp h4)⟩
            · intro hcond
              rfl
          · intro h; simp at h
          · intro hcond
            refine ⟨rfl, rfl, rfl, ?_, ?_⟩
            · intro o hoo
              have heq : o0 = o := by simpa using hoo
              subst heq
              show (updateFirst (fun x => x.id == oid)
                  (fun x => { x with status := st }) db.orders).find?
                  (fun x => x.id == oid) = _
              rw [find?_updateFirst_self (p := fun x : Order => x.id == oid)
                (f := fun x : Order => { x with status := st })
                (fun x => rfl)]
              have ho' : db.orders.find? (fun x => x.id == oid) = some o0 := ho
              rw [ho']
              rfl
            · intro o hom hne
              apply mem_updateFirst_of_neg _ hom
              simp [hne]
      · rw [if_pos (by rw [Bool.eq_false_iff.mpr hany]; rfl)]
        refine ⟨?_, fun _ => rfl, fun h => by simp at h⟩
        constructor
        · intro h; simp at h
        · rintro ⟨b', hbb, -, ⟨it, hit, hoid, p, hp, hpb, hpid⟩, -⟩
          have hbb' : b = b' := by simpa using hbb
          subst hbb'
          refine absurd (List.any_eq_true.mpr ⟨it, hit, ?_⟩) hany
          refine Bool.and_eq_true_iff.mpr ⟨by simpa using hoid, ?_⟩
          exact List.elem_iff.mpr (mem_businessPids.mpr ⟨p, hp, hpb, hpid⟩)

/-- Witness for C9: the DELIVERED order 1 is overwritten to PENDING by its
merchant — the backwards transition is permitted. -/

theorem update_order_status_spec_witness :
    (update_order_status 1 1 OrderStatus.PENDING dbC9w).1 = true ∧
    orderFind (update_order_status 1 1 OrderStatus.PENDING dbC9w).2.2 1 =
      some { id := 1, user_id := 3, total_amount := 10,
             status := OrderStatus.PENDING, shipping_address := "a" } := by
  obtain ⟨hiff, -, hsucc⟩ := update_order_status_spec dbC9w 1 1 .PENDING
  have ht : (update_order_status 1 1 OrderStatus.PENDING dbC9w).1 = true := by
    apply hiff.mpr
    refine ⟨{ id := 1, owner_id := 1, name := "B" }, rfl, ?_, ?_, ?_⟩
    · exact ⟨{ id := 1, business_id := 1, name := "P", price := 10,
               stock_quantity := 5, is_active := true },
             List.mem_cons_self _ _, rfl⟩
    · refine ⟨{ id := 1, order_id := 1, product_id := 1, quantity := 1,
                price_at_time := 10 }, List.mem_cons_self _ _, rfl, ?_⟩
      exact ⟨{ id := 1, business_id := 1, name := "P", price := 10,
               stock_quantity := 5, is_active := true },
             List.mem_cons_self _ _, rfl, rfl⟩
    · exact ⟨{ id := 1, user_id := 3, total_amount := 10,
               status := .DELIVERED, shipping_address := "a" }, rfl⟩
  obtain ⟨-, -, -, hord, -⟩ := hsucc ht
  have h := hord { id := 1, user_id := 3, total_amount := 10,
                   status := .DELIVERED, shipping_address := "a" } rfl
  exact ⟨ht, h⟩

end ECom
